import Mathlib

/-!
Shallow embedding of the DocFlow authentication pages
(src/src/app/auth/email/page.tsx): the email one-time-code login flow and
the OAuth-style callback flow, together with the redirect resolver, the
code-request cooldown timer and the surrounding guards.  Stateful browser
code (React state setters, setInterval timers, sessionStorage) is embedded
as explicit state passing on records; a thrown JavaScript exception is
embedded as `Except.error`.
-/

namespace DocFlow

/-- Model of the hexadecimal digit value of a character, as used by the
percent-decoder of the JavaScript builtin decodeURIComponent. -/
def hexVal (c : Char) : Option Nat :=
  if 48 ≤ c.toNat ∧ c.toNat ≤ 57 then some (c.toNat - 48)
  else if 65 ≤ c.toNat ∧ c.toNat ≤ 70 then some (c.toNat - 55)
  else if 97 ≤ c.toNat ∧ c.toNat ≤ 102 then some (c.toNat - 87)
  else none

/-- Model of percent-decoding over a character list: each occurrence of
a percent sign must be followed by two hexadecimal digits and is replaced
by the character with that code; a truncated or non-hexadecimal escape is
a decoding failure (the JavaScript builtin throws URIError there).  The
model is restricted to single-byte ASCII escapes: a high-byte escape is
also treated as a failure, which matches the builtin on a lone high byte
(an invalid UTF-8 sequence) and is the only regime the claims exercise. -/
def percentDecodeChars : List Char → Option (List Char)
  | [] => some []
  | '%' :: h1 :: h2 :: rest =>
    match hexVal h1, hexVal h2 with
    | some a, some b =>
      if a * 16 + b ≤ 127 then
        (percentDecodeChars rest).map (fun l => Char.ofNat (a * 16 + b) :: l)
      else none
    | _, _ => none
  | '%' :: _ => none
  | c :: rest => (percentDecodeChars rest).map (fun l => c :: l)

/-- Model of the JavaScript builtin decodeURIComponent: `some` is the
decoded string, `none` is a thrown URIError. -/
def decodeURIComponent (s : String) : Option String :=
  (percentDecodeChars s.data).map String.mk

/-- The inbound callback query parameters of the OAuth-style redirect
(read via searchParams.get in src lines 354, 365, 374, 440-452, 462):
`none` is a parameter absent from the URL, `some ""` a present parameter
with an empty value. -/
structure CallbackParams where
  token : Option String
  code : Option String
  refresh_token : Option String
  expires_in : Option String
  refresh_expires_in : Option String
  state : Option String
  redirect_to : Option String
  returnTo : Option String
deriving Repr, DecidableEq

/-- The all-absent parameter set. -/
def noParams : CallbackParams :=
  { token := none, code := none, refresh_token := none, expires_in := none,
    refresh_expires_in := none, state := none, redirect_to := none,
    returnTo := none }

/-- JavaScript truthiness on a nullable string: a value is kept exactly
when it is present and non-empty (the source tests every parameter with
a bare `if`). -/
def truthy (o : Option String) : Option String :=
  match o with
  | some s => if s = "" then none else some s
  | none => none

/-- The sessionStorage fallback block of getRedirectUrl (src lines
372-385): when mounted, a truthy stashed auth_redirect value is returned
and removed from the stash; otherwise the default root is returned with
the stash untouched.  Returns the chosen path and the new stash. -/
def stashResolve (mounted : Bool) (stash : Option String) :
    String × Option String :=
  if mounted then
    match stash with
    | some v => if v = "" then ("/", stash) else (v, none)
    | none => ("/", none)
  else ("/", stash)

/-- The redirect_to / returnTo block of getRedirectUrl (src lines
364-369): the first truthy of the two parameters is percent-decoded with
no surrounding try/catch, so a decoding failure is a thrown URIError
(`Except.error`); when neither is truthy, resolution falls through to the
stash block. -/
def redirectParamResolve (p : CallbackParams) (mounted : Bool)
    (stash : Option String) : Except Unit (String × Option String) :=
  match (truthy p.redirect_to).orElse (fun _ => truthy p.returnTo) with
  | some r =>
    match decodeURIComponent r with
    | some d => Except.ok (d, stash)
    | none => Except.error ()
  | none => Except.ok (stashResolve mounted stash)

/-- getRedirectUrl (src lines 352-389): a truthy state parameter is
percent-decoded inside a try/catch, so its decoding failure falls through
to the next source; then the redirect_to / returnTo block, then the
stash block.  The result is the resolved path together with the stash
left behind, or `Except.error` for a thrown exception. -/
def getRedirectUrl (p : CallbackParams) (mounted : Bool)
    (stash : Option String) : Except Unit (String × Option String) :=
  match truthy p.state with
  | some s =>
    match decodeURIComponent s with
    | some d => Except.ok (d, stash)
    | none => redirectParamResolve p mounted stash
  | none => redirectParamResolve p mounted stash

/-- Claim-side resolver, written from the words of the resolution-order
claim: the first source that is present with a non-empty value wins, in
the order percent-decoded state, percent-decoded redirect_to,
percent-decoded returnTo, then the stashed pending value (erased upon
being read), then the application root.  A source whose decoding fails is
treated as absent.  Returns the chosen path and the new stash. -/
def resolveSpecOrder (p : CallbackParams) (stash : Option String) :
    String × Option String :=
  match (truthy p.state).bind decodeURIComponent with
  | some d => (d, stash)
  | none =>
    match (truthy p.redirect_to).bind decodeURIComponent with
    | some d => (d, stash)
    | none =>
      match (truthy p.returnTo).bind decodeURIComponent with
      | some d => (d, stash)
      | none => stashResolve true stash

/-! ## The email one-time-code login flow -/

/-- The configured length of the one-time code (src line 19). -/
def CODE_LENGTH : Nat := 6

/-- Model of the email rule of emailLoginSchema (src line 23): nonempty,
a valid email shape, and at most 100 characters.  The email-shape check
models the library validator (zod .email, not part of this repository)
as: exactly one at-sign, with a nonempty local part and a nonempty
domain that contains a dot, and no whitespace anywhere. -/
def validateEmail (s : String) : Bool :=
  let cs := s.data
  let l := cs.takeWhile (fun c => c ≠ '@')
  let d := (cs.dropWhile (fun c => c ≠ '@')).drop 1
  decide (1 ≤ s.length) &&
  (cs.count '@' == 1 && l ≠ [] && d ≠ [] && d.contains '.' &&
    cs.all (fun c => ¬ c.isWhitespace)) &&
  decide (s.length ≤ 100)

/-- Model of the code rule of emailLoginSchema (src lines 24-28):
nonempty, exactly CODE_LENGTH characters, digits only. -/
def validateCode (s : String) : Bool :=
  decide (1 ≤ s.length) && s.length == CODE_LENGTH && s.data.all Char.isDigit

/-- The two fields of the login form (src lines 22-31). -/
structure EmailLoginForm where
  email : String
  code : String
deriving Repr, DecidableEq

/-- The zod validation of the whole form, as run by the form resolver
(src lines 50-57): both field rules must hold. -/
def validateForm (f : EmailLoginForm) : Bool :=
  validateEmail f.email && validateCode f.code

/-- handleCodeChange (src lines 222-225): the typed value has every
non-digit character stripped and is truncated to CODE_LENGTH characters
before being stored in the form. -/
def handleCodeChange (s : String) : String :=
  String.mk ((s.data.filter (fun c => c.isDigit)).take CODE_LENGTH)

/-- The user-facing failure categories of the error taxonomy (spec 4.1):
the classification a transport failure arrives with. -/
inductive FailureCategory
  | timeout
  | network
  | unauthorized
  | serverError
  | unknown
deriving Repr, DecidableEq

/-- Modelled from the spec: the request layer (services/request, a
repository module not under src/) classifies a raw transport failure per
the first-match rules of spec 4.1 and invokes the matching callback of
the ErrorHandler object built by the page (src lines 76-94); each
callback surfaces exactly one toast message.  The page installs no
timeout-specific callback, so a timeout falls to the generic onError
callback, and an unclassifiable failure falls to the default callback. -/
def categoryMessage : FailureCategory → String
  | .timeout => "请求失败，请稍后重试"
  | .network => "网络连接失败，请检查网络"
  | .unauthorized => "验证码错误或已失效"
  | .serverError => "服务器错误，请稍后再试"
  | .unknown => "未知错误"

/-- The session payload saved on login (spec 3 AuthSession; built in src
lines 444-454 for the token branch, or returned by the server).  A
numeric field is `none` when the parameter was absent and `some none`
when parseInt produced NaN. -/
structure AuthData where
  token : String
  refresh_token : Option String
  expires_in : Option (Option Int)
  refresh_expires_in : Option (Option Int)
deriving Repr, DecidableEq

/-- The outcome of the best-effort getCurrentUser profile fetch (src
lines 185-195 and 399-408): a successful response with or without a data
payload, a transport failure routed to the onError callback, a
structured unauthorized signal routed to the unauthorized callback, or a
thrown exception. -/
inductive ProfileOutcome
  | ok (profile : String)
  | okNoData
  | onError (msg : String)
  | unauthorized
  | throws (msg : String)
deriving Repr, DecidableEq

/-- The outcome of an AuthAPI call that returns { data, error } (src
lines 130, 162-165): a transport failure already classified by the
request layer, a server response with a status code, an optional message
and a session payload, or a response with no data object. -/
inductive ApiOutcome
  | transport (f : FailureCategory)
  | resp (code : Nat) (message : Option String) (payload : AuthData)
  | noData
deriving Repr, DecidableEq

/-- The observable state of the email login page: the cooldown counter,
the armed interval timers (at most one is ever armed by the page; the
list makes a leaked second timer representable), the two in-flight
flags, the surfaced toasts (newest first, `true` marks an error toast),
the persisted session, the cached profile and the scheduled navigation
target. -/
structure EmailFlowState where
  countdown : Nat
  timerRef : Option Nat
  activeTimers : List Nat
  nextTimerId : Nat
  isSendingCode : Bool
  isSubmitting : Bool
  toasts : List (Bool × String)
  savedSession : Option AuthData
  profileStored : Option String
  navScheduled : Option String
  sendCodeCalled : Bool
  loginCalled : Bool
deriving Repr, DecidableEq

/-- The initial page state (src lines 35-40, 53-56). -/
def initialEmailState : EmailFlowState :=
  { countdown := 0, timerRef := none, activeTimers := [], nextTimerId := 0,
    isSendingCode := false, isSubmitting := false, toasts := [],
    savedSession := none, profileStored := none, navScheduled := none,
    sendCodeCalled := false, loginCalled := false }

/-- clearTimer (src lines 62-67): when a timer id is held, the interval
with that id is disarmed and the ref is cleared; otherwise a no-op. -/
def clearTimer (s : EmailFlowState) : EmailFlowState :=
  match s.timerRef with
  | some id => { s with activeTimers := s.activeTimers.erase id, timerRef := none }
  | none => s

/-- startCountdown (src lines 97-112): clear any previous timer, set the
counter to 60 and arm a fresh recurring one-second interval whose id is
stored in the ref. -/
def startCountdown (s : EmailFlowState) : EmailFlowState :=
  let s1 := clearTimer s
  { s1 with countdown := 60,
            timerRef := some s1.nextTimerId,
            activeTimers := s1.activeTimers ++ [s1.nextTimerId],
            nextTimerId := s1.nextTimerId + 1 }

/-- The body of the recurring interval callback (src lines 102-110): a
counter at 1 or below clears the timer and becomes 0, otherwise the
counter decrements by one. -/
def intervalCallback (s : EmailFlowState) : EmailFlowState :=
  if s.countdown ≤ 1 then { clearTimer s with countdown := 0 }
  else { s with countdown := s.countdown - 1 }

/-- One simulated second: every armed interval fires its callback once
(the page arms at most one). -/
def advanceSecond (s : EmailFlowState) : EmailFlowState :=
  s.activeTimers.foldl (fun st _ => intervalCallback st) s

/-- `k` simulated seconds. -/
def advanceSeconds : Nat → EmailFlowState → EmailFlowState
  | 0, s => s
  | k + 1, s => advanceSeconds k (advanceSecond s)

/-- canRequest of the throttle (spec 4.2): a new code request is allowed
exactly when the cooldown counter is 0 (the page disables the send
button while countdown > 0, src lines 124, 228). -/
def canRequest (s : EmailFlowState) : Bool :=
  s.countdown == 0

/-- A toast surfaced to the user (newest first). -/
def pushToast (isError : Bool) (msg : String) (s : EmailFlowState) :
    EmailFlowState :=
  { s with toasts := (isError, msg) :: s.toasts }

/-- handleSendCode (src lines 115-149): an invalid or empty email is a
local no-op; a dispatch already in flight or a running cooldown is a
no-op; otherwise the send-code call is issued, a transport failure
surfaces its classified toast, a 201 response surfaces the success toast
and starts the countdown, and any other response surfaces the server
message (or the fallback text) without starting the countdown. -/
def handleSendCode (email : String) (res : ApiOutcome) (s : EmailFlowState) :
    EmailFlowState :=
  if ¬ (validateEmail email = true) ∨ email = "" then s
  else if s.isSendingCode = true ∨ 0 < s.countdown then s
  else
    let s1 := { s with isSendingCode := true, sendCodeCalled := true }
    match res with
    | .transport f => { pushToast true (categoryMessage f) s1 with isSendingCode := false }
    | .resp c msg _ =>
      if c = 201 then
        { startCountdown (pushToast false "验证码已发送" s1) with isSendingCode := false }
      else
        { pushToast true (msg.getD "发送验证码失败") s1 with isSendingCode := false }
    | .noData => { pushToast true "发送验证码失败" s1 with isSendingCode := false }

/-- The profile-fetch block of onSubmit (src lines 183-204): a loaded
profile is cached; a transport failure or a thrown exception surfaces
the soft-warning toast; an unauthorized signal surfaces its toast; none
of them touch the session or the navigation. -/
def emailProfileStep (profile : ProfileOutcome) (s : EmailFlowState) :
    EmailFlowState :=
  match profile with
  | .ok p => { s with profileStored := some p }
  | .okNoData => s
  | .onError _ => pushToast true "获取用户资料失败，但登录成功" s
  | .unauthorized => pushToast true "用户认证失败" s
  | .throws _ => pushToast true "获取用户资料失败，但登录成功" s

/-- onSubmit (src lines 152-219): re-entry while submitting is a no-op;
otherwise the login call is issued.  A transport failure surfaces its
classified toast; a 201 response surfaces the success toast, persists
the session, runs the best-effort profile step, clears the cooldown
timer and schedules the deferred navigation to the root; any other
response surfaces the server message (or the fallback text).  The
in-flight flag is dropped at the end of every branch. -/
def onSubmit (f : EmailLoginForm) (res : ApiOutcome)
    (profile : ProfileOutcome) (s : EmailFlowState) : EmailFlowState :=
  if s.isSubmitting = true then s
  else
    let s1 := { s with isSubmitting := true, loginCalled := true }
    match res with
    | .transport fc =>
      { pushToast true (categoryMessage fc) s1 with isSubmitting := false }
    | .resp c msg payload =>
      if c = 201 then
        let s2 := { pushToast false "登录成功！" s1 with savedSession := some payload }
        let s3 := clearTimer (emailProfileStep profile s2)
        { s3 with navScheduled := some "/", isSubmitting := false }
      else
        { pushToast true (msg.getD "登录失败，请检查验证码是否正确") s1 with
            isSubmitting := false }
    | .noData =>
      { pushToast true "登录失败，请检查验证码是否正确" s1 with isSubmitting := false }

/-- The submit entry point: handleSubmit of the form library (a
third-party dependency) runs the zod resolver first and only invokes
onSubmit when the whole form validates (src lines 50-57, 241); an
invalid form surfaces field-level errors locally and issues nothing. -/
def submitForm (f : EmailLoginForm) (res : ApiOutcome)
    (profile : ProfileOutcome) (s : EmailFlowState) : EmailFlowState :=
  if validateForm f = true then onSubmit f res profile s else s

/-- The toast message every failing login outcome surfaces (src lines
169-174, 213-216 and the ErrorHandler callbacks): the classified
category message on transport failure, else the server message when
present, else the fallback text; `none` for the successful outcome. -/
def loginFailureMessage : ApiOutcome → Option String
  | .transport fc => some (categoryMessage fc)
  | .resp c msg _ =>
    if c = 201 then none else some (msg.getD "登录失败，请检查验证码是否正确")
  | .noData => some "登录失败，请检查验证码是否正确"

/-! ## The OAuth callback flow -/

/-- The three values of the visible flow state of the callback page
(src line 341). -/
inductive UiState
  | loading
  | success
  | error
deriving Repr, DecidableEq

/-- The observable state of the callback page: the setState trace
(newest first; the page starts in loading), the persisted session,
whether a profile was cached, the scheduled navigation target, whether
the code-exchange capability was invoked, and the sessionStorage stash
slot. -/
structure OAuthState where
  states : List UiState
  saved : Option AuthData
  profileStored : Bool
  navScheduled : Option String
  exchangeCalled : Bool
  stash : Option String
deriving Repr, DecidableEq

/-- The state the callback page mounts in, over a given stash slot. -/
def initOAuth (stash : Option String) : OAuthState :=
  { states := [UiState.loading], saved := none, profileStored := false,
    navScheduled := none, exchangeCalled := false, stash := stash }

/-- The visible state after a run: the latest setState call, loading
when none was made. -/
def currentUiState (st : OAuthState) : UiState :=
  st.states.headD UiState.loading

/-- Model of the JavaScript parseInt builtin on these inputs: skip
leading whitespace, accept an optional sign, read the leading decimal
digits; `none` is NaN. -/
def parseIntJS (s : String) : Option Int :=
  let digitsOf : List Char → Option Nat := fun cs =>
    let ds := cs.takeWhile Char.isDigit
    if ds = [] then none
    else some (ds.foldl (fun a c => a * 10 + (c.toNat - 48)) 0)
  match s.data.dropWhile Char.isWhitespace with
  | '-' :: rest => (digitsOf rest).map (fun n => -(n : Int))
  | '+' :: rest => (digitsOf rest).map (fun n => (n : Int))
  | cs => (digitsOf cs).map (fun n => (n : Int))

/-- The session object built in the direct-token branch (src lines
444-454): the token itself, the refresh token when truthy, and each
expiry parsed with parseInt when its parameter is truthy. -/
def buildTokenAuthData (p : CallbackParams) (t : String) : AuthData :=
  { token := t,
    refresh_token := truthy p.refresh_token,
    expires_in := (truthy p.expires_in).map parseIntJS,
    refresh_expires_in := (truthy p.refresh_expires_in).map parseIntJS }

/-- handleAuthSuccess (src lines 392-423): persist the session, set the
visible state to success, then run the best-effort profile fetch — a
loaded profile is cached, an unauthorized signal sets the visible state
to error, a transport failure or a thrown exception only changes the
status text — and finally resolve the redirect target and schedule the
deferred navigation to it.  The redirect resolution runs outside the
try/catch, so the returned flag is true when it threw and the
navigation was never scheduled. -/
def handleAuthSuccess (authData : AuthData) (profile : ProfileOutcome)
    (p : CallbackParams) (st : OAuthState) : OAuthState × Bool :=
  let st1 := { st with saved := some authData,
                       states := UiState.success :: st.states }
  let st2 :=
    match profile with
    | .ok _ => { st1 with profileStored := true }
    | .okNoData => st1
    | .onError _ => st1
    | .unauthorized => { st1 with states := UiState.error :: st1.states }
    | .throws _ => st1
  match getRedirectUrl p true st2.stash with
  | Except.ok (url, stash2) =>
    ({ st2 with navScheduled := some url, stash := stash2 }, false)
  | Except.error _ => (st2, true)

/-- processAuth (src lines 429-517): a missing parameter object is a
terminal error; a truthy token builds the session from the parameters
and runs handleAuthSuccess with no exchange call; otherwise a truthy
code is required (its absence is a terminal error) and the exchange
capability is invoked — a transport failure, a response with no data or
a status other than 200 is a terminal error, and a 200 response runs
handleAuthSuccess on the returned payload.  The surrounding try/catch
turns an exception thrown out of handleAuthSuccess into the error
state (src lines 430, 502-516): the exception is caught and sets the
visible state to error; the side effects already performed stay in
place, which runAuthSuccess below captures. -/
def runAuthSuccess (authData : AuthData) (profile : ProfileOutcome)
    (p : CallbackParams) (st : OAuthState) : OAuthState :=
  let r := handleAuthSuccess authData profile p st
  if r.2 then { r.1 with states := UiState.error :: r.1.states } else r.1

def processAuth (params : Option CallbackParams) (exch : ApiOutcome)
    (profile : ProfileOutcome) (stash : Option String) : OAuthState :=
  let st0 := initOAuth stash
  match params with
  | none => { st0 with states := UiState.error :: st0.states }
  | some p =>
    match truthy p.token with
    | some t => runAuthSuccess (buildTokenAuthData p t) profile p st0
    | none =>
      match truthy p.code with
      | none => { st0 with states := UiState.error :: st0.states }
      | some _ =>
        let st1 := { st0 with exchangeCalled := true }
        match exch with
        | .transport _ => { st1 with states := UiState.error :: st1.states }
        | .resp c _ payload =>
          if c = 200 then runAuthSuccess payload profile p st1
          else { st1 with states := UiState.error :: st1.states }
        | .noData => { st1 with states := UiState.error :: st1.states }

/-! ## Helper lemmas -/

lemma redirectParamResolve_spec (p : CallbackParams) (stash : Option String)
    (hsel : ∀ r, (truthy p.redirect_to).orElse (fun _ => truthy p.returnTo) = some r →
        (decodeURIComponent r).isSome) :
    redirectParamResolve p true stash = Except.ok (
      match (truthy p.redirect_to).bind decodeURIComponent with
      | some d => (d, stash)
      | none =>
        match (truthy p.returnTo).bind decodeURIComponent with
        | some d => (d, stash)
        | none => stashResolve true stash) := by
  unfold redirectParamResolve
  cases hrd : truthy p.redirect_to with
  | some r =>
    have hor : (truthy p.redirect_to).orElse (fun _ => truthy p.returnTo) = some r := by
      simp [hrd, Option.orElse]
    obtain ⟨d, hd⟩ := Option.isSome_iff_exists.mp (hsel r hor)
    simp [hrd, hor, hd]
  | none =>
    cases hrt : truthy p.returnTo with
    | some r =>
      have hor : (truthy p.redirect_to).orElse (fun _ => truthy p.returnTo) = some r := by
        simp [hrd, hrt, Option.orElse]
      obtain ⟨d, hd⟩ := Option.isSome_iff_exists.mp (hsel r hor)
      simp [hrd, hrt, hor, hd]
    | none => simp [hrd, hrt, Option.orElse, stashResolve]

/-! ## The claims -/

/-- C2 (amended): resolve returns the first truthy source in the order
percent-decoded state (a failing state decode is skipped), else
percent-decoded redirect_to, else percent-decoded returnTo, else the
stashed pending value — erased upon being read, so a second call with
otherwise-empty parameters returns the root — else the root; provided
only that when the selected source is redirect_to or returnTo (i.e. the
state source yields nothing and one of the two is truthy), the selected
value percent-decodes successfully. -/
theorem redirect_resolution_order (p : CallbackParams) (stash : Option String)
    (hsel : ∀ r, (truthy p.state).bind decodeURIComponent = none →
        (truthy p.redirect_to).orElse (fun _ => truthy p.returnTo) = some r →
        (decodeURIComponent r).isSome) :
    getRedirectUrl p true stash = Except.ok (resolveSpecOrder p stash) := by
  unfold getRedirectUrl resolveSpecOrder
  cases hst : truthy p.state with
  | some s =>
    cases hds : decodeURIComponent s with
    | some d => simp [hds]
    | none =>
      have hnone : (truthy p.state).bind decodeURIComponent = none := by
        rw [hst]
        simpa using hds
      simp only [Option.bind_eq_bind, Option.some_bind, hds]
      exact redirectParamResolve_spec p stash (fun r hr => hsel r hnone hr)
  | none =>
    have hnone : (truthy p.state).bind decodeURIComponent = none := by
      rw [hst]
      rfl
    simp only [Option.bind_eq_bind, Option.none_bind]
    exact redirectParamResolve_spec p stash (fun r hr => hsel r hnone hr)

/-- C2 (witness): with no parameters and a stashed pending value
/settings, resolve returns /settings and erases the stash; with no
parameters and an empty stash it returns the root; and with a decodable
state value the state source is selected, so an undecodable returnTo
alongside it is irrelevant and resolve returns the decoded state. -/
theorem redirect_resolution_order_witness :
    getRedirectUrl noParams true (some "/settings") = Except.ok ("/settings", none) ∧
    getRedirectUrl noParams true none = Except.ok ("/", none) ∧
    getRedirectUrl { noParams with state := some "%2Fdocs", returnTo := some "%" }
      true none = Except.ok ("/docs", none) := by
  have h1 := redirect_resolution_order noParams (some "/settings")
    (fun r _ h => nomatch h)
  have h2 := redirect_resolution_order noParams none
    (fun r _ h => nomatch h)
  have h3 := redirect_resolution_order
    { noParams with state := some "%2Fdocs", returnTo := some "%" } none
    (fun r h _ => absurd h (by decide))
  exact ⟨by simpa [resolveSpecOrder, noParams, truthy, stashResolve] using h1,
         by simpa [resolveSpecOrder, noParams, truthy, stashResolve] using h2,
         by simpa [resolveSpecOrder, noParams, truthy, stashResolve] using h3⟩

/-- C2 (counterexample): with redirect_to set to the undecodable value
"%" and every other source absent, resolve does not return any path at
all — it throws — falsifying the claim that resolve always returns the
first present source. -/
theorem resolve_throws_on_undecodable_redirect :
    getRedirectUrl { noParams with redirect_to := some "%" } true none =
      Except.error () := rfl

/-- C3 (amended): a state value whose percent-decoding fails is treated
as absent and resolution proceeds to the next source; but a truthy
redirect_to / returnTo value whose percent-decoding fails makes resolve
throw instead of being treated as absent. -/
theorem decode_failure_source_handling :
    (∀ (p : CallbackParams) (stash : Option String) (s : String),
        p.state = some s → decodeURIComponent s = none →
        getRedirectUrl p true stash =
          getRedirectUrl { p with state := none } true stash) ∧
    (∀ (p : CallbackParams) (stash : Option String) (r : String),
        (truthy p.state).bind decodeURIComponent = none →
        (truthy p.redirect_to).orElse (fun _ => truthy p.returnTo) = some r →
        decodeURIComponent r = none →
        getRedirectUrl p true stash = Except.error ()) := by
  constructor
  · intro p stash s hs hd
    have hne : s ≠ "" := by
      intro h
      rw [h] at hd
      simp [decodeURIComponent, percentDecodeChars] at hd
    have hts : truthy p.state = some s := by simp [truthy, hs, hne]
    unfold getRedirectUrl
    simp only [hts, hd]
    have hts2 : truthy ({ p with state := none } : CallbackParams).state = none := rfl
    simp only [hts2]
    rfl
  · intro p stash r hst hr hd
    unfold getRedirectUrl
    cases hsv : truthy p.state with
    | some s =>
      have : decodeURIComponent s = none := by
        rw [hsv] at hst
        simpa using hst
      simp only [this]
      unfold redirectParamResolve
      simp [hr, hd]
    | none =>
      unfold redirectParamResolve
      simp [hr, hd]

/-- C3 (witness): an undecodable state value "%zz" is skipped exactly as
if state were absent, and an undecodable returnTo value "%" (with state
also failing to decode) makes resolve throw. -/
theorem decode_failure_source_handling_witness :
    getRedirectUrl { noParams with state := some "%zz", redirect_to := some "%2Fteam" }
        true none
      = getRedirectUrl { noParams with state := none, redirect_to := some "%2Fteam" }
        true none ∧
    getRedirectUrl { noParams with state := some "%zz", returnTo := some "%" }
        true (some "/x")
      = Except.error () := by
  constructor
  · exact decode_failure_source_handling.1
      { noParams with state := some "%zz", redirect_to := some "%2Fteam" }
      none "%zz" rfl rfl
  · exact decode_failure_source_handling.2
      { noParams with state := some "%zz", returnTo := some "%" }
      (some "/x") "%" rfl rfl rfl

/-- C3 (counterexample): with returnTo set to the undecodable value "%"
and a stashed pending value /x present, resolve throws instead of
treating the failing source as absent and returning /x from the next
source. -/
theorem resolve_throws_on_undecodable_returnTo :
    getRedirectUrl { noParams with returnTo := some "%" } true (some "/x") =
      Except.error () := rfl

lemma advanceSecond_nil (s : EmailFlowState) (h : s.activeTimers = []) :
    advanceSecond s = s := by
  simp [advanceSecond, h]

lemma advanceSeconds_stopped (k : Nat) (s : EmailFlowState)
    (h : s.activeTimers = []) : advanceSeconds k s = s := by
  induction k with
  | zero => rfl
  | succ k ih => rw [advanceSeconds, advanceSecond_nil s h, ih]

lemma running_countdown (k : Nat) : ∀ (s : EmailFlowState) (id : Nat),
    s.timerRef = some id → s.activeTimers = [id] → 0 < s.countdown →
    (k ≤ s.countdown → (advanceSeconds k s).countdown = s.countdown - k) ∧
    (s.countdown ≤ k → (advanceSeconds k s).countdown = 0 ∧
      (advanceSeconds k s).activeTimers = []) := by
  induction k with
  | zero =>
    intro s id h1 h2 h3
    refine ⟨fun _ => rfl, fun h => ?_⟩
    omega
  | succ k ih =>
    intro s id h1 h2 h3
    rw [advanceSeconds]
    have hone : advanceSecond s = intervalCallback s := by
      simp [advanceSecond, h2]
    rw [hone]
    by_cases hc : s.countdown ≤ 1
    · have hcd : s.countdown = 1 := by omega
      have hfields : (intervalCallback s).countdown = 0 ∧
          (intervalCallback s).activeTimers = [] := by
        simp [intervalCallback, hc, clearTimer, h1, h2]
      rw [advanceSeconds_stopped k _ hfields.2]
      refine ⟨fun hk => ?_, fun _ => hfields⟩
      rw [hfields.1]
      omega
    · have hfields : (intervalCallback s).countdown = s.countdown - 1 ∧
          (intervalCallback s).activeTimers = [id] ∧
          (intervalCallback s).timerRef = some id := by
        simp [intervalCallback, hc, h1, h2]
      obtain ⟨hl, hr⟩ := ih (intervalCallback s) id hfields.2.2 hfields.2.1
        (by omega)
      constructor
      · intro hk
        rw [hl (by omega), hfields.1]
        omega
      · intro hk
        exact hr (by omega)

lemma startCountdown_running (s : EmailFlowState)
    (hwf : s.activeTimers = s.timerRef.toList) :
    (startCountdown s).countdown = 60 ∧
    (startCountdown s).timerRef = some s.nextTimerId ∧
    (startCountdown s).activeTimers = [s.nextTimerId] := by
  cases h : s.timerRef with
  | none =>
    have ha : s.activeTimers = [] := by simp [hwf, h]
    simp [startCountdown, clearTimer, h, ha]
  | some id =>
    have ha : s.activeTimers = [id] := by simp [hwf, h]
    simp [startCountdown, clearTimer, h, ha]

/-- C6: starting the throttle twice in quick succession leaves exactly
one armed countdown at 60, which then decrements by exactly one per
simulated second until it reaches 0 after 60 seconds, at which point no
timer remains armed. -/
theorem double_start_single_countdown (s : EmailFlowState)
    (hwf : s.activeTimers = s.timerRef.toList) :
    (startCountdown (startCountdown s)).countdown = 60 ∧
    (startCountdown (startCountdown s)).activeTimers.length = 1 ∧
    (∀ k, k ≤ 60 →
      (advanceSeconds k (startCountdown (startCountdown s))).countdown = 60 - k) ∧
    (∀ k, 60 ≤ k →
      (advanceSeconds k (startCountdown (startCountdown s))).countdown = 0 ∧
      (advanceSeconds k (startCountdown (startCountdown s))).activeTimers = []) := by
  obtain ⟨c1, t1, a1⟩ := startCountdown_running s hwf
  have hwf2 : (startCountdown s).activeTimers = (startCountdown s).timerRef.toList := by
    rw [t1, a1]
    rfl
  obtain ⟨c2, t2, a2⟩ := startCountdown_running (startCountdown s) hwf2
  have hrun := fun k => running_countdown k (startCountdown (startCountdown s))
    (startCountdown s).nextTimerId t2 a2 (by rw [c2]; omega)
  refine ⟨c2, by rw [a2]; rfl, fun k hk => ?_, fun k hk => ?_⟩
  · have := (hrun k).1 (by rw [c2]; omega)
    rw [this, c2]
  · exact (hrun k).2 (by rw [c2]; omega)

/-- C6 (witness): from the freshly mounted page, two immediate starts
leave one armed timer at 60; after 59 seconds the counter reads 1, after
60 it reads 0 and no timer remains armed. -/
theorem double_start_single_countdown_witness :
    (startCountdown (startCountdown initialEmailState)).countdown = 60 ∧
    (startCountdown (startCountdown initialEmailState)).activeTimers.length = 1 ∧
    (advanceSeconds 59 (startCountdown (startCountdown initialEmailState))).countdown = 1 ∧
    (advanceSeconds 60 (startCountdown (startCountdown initialEmailState))).countdown = 0 ∧
    (advanceSeconds 60 (startCountdown (startCountdown initialEmailState))).activeTimers = [] := by
  have h := double_start_single_countdown initialEmailState rfl
  obtain ⟨hk, hk2⟩ := h.2.2.2 60 (by omega)
  exact ⟨h.1, h.2.1, by simpa using h.2.2.1 59 (by omega), hk, hk2⟩

lemma handleSendCode_success (email : String) (msg : Option String)
    (payload : AuthData) (s : EmailFlowState)
    (hv : validateEmail email = true) (hne : email ≠ "")
    (hflight : s.isSendingCode = false) (hcd : s.countdown = 0) :
    handleSendCode email (ApiOutcome.resp 201 msg payload) s =
      { startCountdown (pushToast false "验证码已发送"
          { s with isSendingCode := true, sendCodeCalled := true }) with
        isSendingCode := false } := by
  unfold handleSendCode
  simp [hv, hne, hflight, hcd]

/-- C5: from an idle throttle, a server-confirmed successful
sendEmailCode dispatch (a 201 response) on a well-formed email sets the
cooldown counter to 60, so canRequest is false immediately afterward;
with no intervening start the counter decrements by one per simulated
second and canRequest becomes true exactly when 60 seconds have
elapsed. -/
theorem send_code_success_starts_cooldown (email : String) (msg : Option String)
    (payload : AuthData) (s : EmailFlowState)
    (hv : validateEmail email = true) (hne : email ≠ "")
    (hflight : s.isSendingCode = false) (hcd : s.countdown = 0)
    (hwf : s.activeTimers = s.timerRef.toList) :
    canRequest (handleSendCode email (ApiOutcome.resp 201 msg payload) s) = false ∧
    (handleSendCode email (ApiOutcome.resp 201 msg payload) s).countdown = 60 ∧
    (∀ k, k ≤ 60 → (advanceSeconds k
        (handleSendCode email (ApiOutcome.resp 201 msg payload) s)).countdown = 60 - k) ∧
    (∀ k, canRequest (advanceSeconds k
        (handleSendCode email (ApiOutcome.resp 201 msg payload) s)) = decide (60 ≤ k)) := by
  rw [handleSendCode_success email msg payload s hv hne hflight hcd]
  set sp : EmailFlowState :=
    pushToast false "验证码已发送" { s with isSendingCode := true, sendCodeCalled := true } with hsp
  have hwfp : sp.activeTimers = sp.timerRef.toList := by
    simp [hsp, pushToast, hwf]
  obtain ⟨c1, t1, a1⟩ := startCountdown_running sp hwfp
  set s2 : EmailFlowState := { startCountdown sp with isSendingCode := false } with hs2
  have c2 : s2.countdown = 60 := c1
  have t2 : s2.timerRef = some sp.nextTimerId := t1
  have a2 : s2.activeTimers = [sp.nextTimerId] := a1
  have hrun := fun k => running_countdown k s2 sp.nextTimerId t2 a2 (by rw [c2]; omega)
  refine ⟨by simp [canRequest, c1], c2, fun k hk => ?_, fun k => ?_⟩
  · have := (hrun k).1 (by rw [c2]; omega)
    rw [this, c2]
  · by_cases hk : 60 ≤ k
    · have := (hrun k).2 (by rw [c2]; omega)
      simp [canRequest, this.1, hk]
    · have := (hrun k).1 (by rw [c2]; omega)
      have hne2 : (advanceSeconds k s2).countdown ≠ 0 := by
        rw [this, c2]
        omega
      simp [canRequest, hne2, hk]

/-- C5 (witness): a 201 sendEmailCode response on the well-formed email
a@b.cc from the freshly mounted page makes canRequest false, keeps it
false through 59 simulated seconds, and makes it true at 60. -/
theorem send_code_success_starts_cooldown_witness :
    validateEmail "a@b.cc" = true ∧
    canRequest (handleSendCode "a@b.cc"
      (ApiOutcome.resp 201 none ⟨"", none, none, none⟩) initialEmailState) = false ∧
    canRequest (advanceSeconds 59 (handleSendCode "a@b.cc"
      (ApiOutcome.resp 201 none ⟨"", none, none, none⟩) initialEmailState)) = false ∧
    canRequest (advanceSeconds 60 (handleSendCode "a@b.cc"
      (ApiOutcome.resp 201 none ⟨"", none, none, none⟩) initialEmailState)) = true := by
  have h := send_code_success_starts_cooldown "a@b.cc" none
    ⟨"", none, none, none⟩
    initialEmailState (by decide) (by decide) rfl rfl rfl
  refine ⟨by decide, h.1, ?_, ?_⟩
  · have := h.2.2.2 59
    simpa using this
  · have := h.2.2.2 60
    simpa using this

/-- C7: whenever the code field is malformed (wrong length or a
non-digit) or the email field fails format validation, the form resolver
blocks the submission locally: the page state is untouched and in
particular no emailCodeLogin network call is issued. -/
theorem invalid_form_blocks_submission (f : EmailLoginForm) (res : ApiOutcome)
    (profile : ProfileOutcome) (s : EmailFlowState)
    (h : validateCode f.code = false ∨ validateEmail f.email = false) :
    submitForm f res profile s = s := by
  have hf : validateForm f = false := by
    rcases h with h | h <;> simp [validateForm, h]
  simp [submitForm, hf]

/-- C7 (witness): submitting the five-character code 12a45 with a valid
email leaves the freshly mounted page state unchanged, so no login call
was issued. -/
theorem invalid_form_blocks_submission_witness :
    validateCode "12a45" = false ∧
    submitForm ⟨"a@b.cc", "12a45"⟩ (ApiOutcome.resp 201 none ⟨"t", none, none, none⟩)
      ProfileOutcome.okNoData initialEmailState = initialEmailState := by
  refine ⟨by decide, ?_⟩
  exact invalid_form_blocks_submission ⟨"a@b.cc", "12a45"⟩
    (ApiOutcome.resp 201 none ⟨"t", none, none, none⟩)
    ProfileOutcome.okNoData initialEmailState (Or.inl (by decide))

/-- C8: a login submission ending in a transport failure or a
non-success server response leaves everything except the failure toast
unchanged — no session is persisted, no navigation is scheduled, the
in-flight flag is back to false so the form stays editable — and the
surfaced toast carries the most specific message available: the server
message when present, else the classified category or fallback
message. -/
theorem login_failure_preserves_state (f : EmailLoginForm) (res : ApiOutcome)
    (profile : ProfileOutcome) (s : EmailFlowState) (m : String)
    (hns : s.isSubmitting = false) (hfail : loginFailureMessage res = some m) :
    onSubmit f res profile s =
      { s with loginCalled := true, toasts := (true, m) :: s.toasts } := by
  cases s
  cases res with
  | transport fc =>
    simp only [loginFailureMessage, Option.some_inj] at hfail
    simp_all [onSubmit, pushToast]
  | resp c msg payload =>
    simp only [loginFailureMessage] at hfail
    by_cases hc : c = 201
    · simp [hc] at hfail
    · simp [hc] at hfail
      simp_all [onSubmit, pushToast, hc]
  | noData =>
    simp only [loginFailureMessage, Option.some_inj] at hfail
    simp_all [onSubmit, pushToast]

/-- C8 (witness): a network transport failure of the login call from the
freshly mounted page leaves only the classified failure toast and the
record of the issued call behind: no session, no navigation, form
editable. -/
theorem login_failure_preserves_state_witness :
    onSubmit ⟨"a@b.cc", "123456"⟩ (ApiOutcome.transport FailureCategory.network)
      ProfileOutcome.okNoData initialEmailState =
    { initialEmailState with loginCalled := true,
                             toasts := [(true, "网络连接失败，请检查网络")] } := by
  exact login_failure_preserves_state ⟨"a@b.cc", "123456"⟩
    (ApiOutcome.transport FailureCategory.network) ProfileOutcome.okNoData
    initialEmailState "网络连接失败，请检查网络" rfl rfl

/-- C9: for every input typed into the code field, the value stored by
the change handler has length at most CODE_LENGTH and consists only of
ASCII digits. -/
theorem code_change_digits_bounded (s : String) :
    (handleCodeChange s).length ≤ CODE_LENGTH ∧
    (handleCodeChange s).data.all Char.isDigit = true := by
  constructor
  · show (String.mk ((s.data.filter (fun c => c.isDigit)).take CODE_LENGTH)).length ≤ CODE_LENGTH
    simp [String.length]
  · show (String.mk ((s.data.filter (fun c => c.isDigit)).take CODE_LENGTH)).data.all Char.isDigit = true
    simp only [List.all_eq_true]
    intro c hc
    have hmem := List.take_subset CODE_LENGTH _ hc
    exact (List.mem_filter.mp hmem).2

lemma handleAuthSuccess_fields (authData : AuthData) (profile : ProfileOutcome)
    (p : CallbackParams) (st : OAuthState) :
    (handleAuthSuccess authData profile p st).1.saved = some authData ∧
    (handleAuthSuccess authData profile p st).1.exchangeCalled = st.exchangeCalled ∧
    UiState.success ∈ (handleAuthSuccess authData profile p st).1.states := by
  unfold handleAuthSuccess
  cases profile <;> cases h : getRedirectUrl p true st.stash <;> simp [h]

lemma runAuthSuccess_fields (authData : AuthData) (profile : ProfileOutcome)
    (p : CallbackParams) (st : OAuthState) :
    (runAuthSuccess authData profile p st).saved = some authData ∧
    (runAuthSuccess authData profile p st).exchangeCalled = st.exchangeCalled ∧
    UiState.success ∈ (runAuthSuccess authData profile p st).states := by
  obtain ⟨h1, h2, h3⟩ := handleAuthSuccess_fields authData profile p st
  unfold runAuthSuccess
  by_cases hb : (handleAuthSuccess authData profile p st).2 <;> simp [hb, h1, h2, h3]

/-- C4: whenever the callback parameters carry a truthy token, the flow
persists a session constructed directly from the parameters, reaches the
success state, and never invokes the code-exchange capability — for
every profile-fetch outcome and every would-be exchange response. -/
theorem token_bypasses_exchange (p : CallbackParams) (t : String)
    (exch : ApiOutcome) (profile : ProfileOutcome) (stash : Option String)
    (ht : p.token = some t) (hne : t ≠ "") :
    (processAuth (some p) exch profile stash).saved = some (buildTokenAuthData p t) ∧
    UiState.success ∈ (processAuth (some p) exch profile stash).states ∧
    (processAuth (some p) exch profile stash).exchangeCalled = false := by
  have htr : truthy p.token = some t := by simp [truthy, ht, hne]
  have hpa : processAuth (some p) exch profile stash =
      runAuthSuccess (buildTokenAuthData p t) profile p (initOAuth stash) := by
    unfold processAuth
    simp [htr]
  obtain ⟨h1, h2, h3⟩ := runAuthSuccess_fields (buildTokenAuthData p t) profile p (initOAuth stash)
  rw [hpa]
  exact ⟨h1, h3, h2⟩

/-- C4 (witness): callback parameters containing only token=abc123 reach
success with the session built from the parameters and with the exchange
capability never invoked. -/
theorem token_bypasses_exchange_witness :
    (processAuth (some { noParams with token := some "abc123" })
        ApiOutcome.noData (ProfileOutcome.ok "p") none).exchangeCalled = false ∧
    UiState.success ∈ (processAuth (some { noParams with token := some "abc123" })
        ApiOutcome.noData (ProfileOutcome.ok "p") none).states ∧
    (processAuth (some { noParams with token := some "abc123" })
        ApiOutcome.noData (ProfileOutcome.ok "p") none).saved =
      some ⟨"abc123", none, none, none⟩ := by
  have h := token_bypasses_exchange { noParams with token := some "abc123" } "abc123"
    ApiOutcome.noData (ProfileOutcome.ok "p") none rfl (by decide)
  exact ⟨h.2.2, h.2.1, h.1⟩

/-- C1 (evaluation at the failing input): after a token-only callback
has persisted the session and reached success, a profile fetch that
signals unauthorized moves the visible state to error — the flow does
not remain in success, contradicting the claim and the spec, which
demand that a best-effort profile fetch never downgrade a success
outcome. -/
theorem profile_unauthorized_downgrades_success :
    currentUiState (processAuth (some { noParams with token := some "abc123" })
        ApiOutcome.noData ProfileOutcome.unauthorized none) = UiState.error ∧
    (processAuth (some { noParams with token := some "abc123" })
        ApiOutcome.noData ProfileOutcome.unauthorized none).saved =
      some ⟨"abc123", none, none, none⟩ ∧
    UiState.success ∈ (processAuth (some { noParams with token := some "abc123" })
        ApiOutcome.noData ProfileOutcome.unauthorized none).states := by
  exact ⟨rfl, rfl, by decide⟩

/-- C10 (amended): whenever a session has been persisted by
handleAuthSuccess and the redirect-target resolution does not itself
throw, a navigation to the resolved target is scheduled for every
profile-fetch outcome — including the unauthorized signal that has
already set the visible state to error. -/
theorem session_persisted_schedules_nav (authData : AuthData)
    (profile : ProfileOutcome) (p : CallbackParams) (st : OAuthState)
    (url : String) (stash2 : Option String)
    (hres : getRedirectUrl p true st.stash = Except.ok (url, stash2)) :
    (handleAuthSuccess authData profile p st).1.saved = some authData ∧
    (handleAuthSuccess authData profile p st).1.navScheduled = some url ∧
    (handleAuthSuccess authData profile p st).2 = false := by
  unfold handleAuthSuccess
  cases profile <;> simp [hres]

/-- C10 (witness): with no redirect hints and an empty stash, a
persisted session schedules navigation to the root even when the profile
fetch signalled unauthorized. -/
theorem session_persisted_schedules_nav_witness :
    (handleAuthSuccess ⟨"abc123", none, none, none⟩ ProfileOutcome.unauthorized
        noParams (initOAuth none)).1.saved = some ⟨"abc123", none, none, none⟩ ∧
    (handleAuthSuccess ⟨"abc123", none, none, none⟩ ProfileOutcome.unauthorized
        noParams (initOAuth none)).1.navScheduled = some "/" ∧
    (handleAuthSuccess ⟨"abc123", none, none, none⟩ ProfileOutcome.unauthorized
        noParams (initOAuth none)).2 = false := by
  exact session_persisted_schedules_nav ⟨"abc123", none, none, none⟩
    ProfileOutcome.unauthorized noParams (initOAuth none) "/" none rfl

/-- C10 (counterexample): a callback whose redirect_to value "%" fails
to percent-decode persists the session but schedules no navigation at
all — the resolution throws before the deferred navigation is set up —
falsifying the claim that session persistence always leads to a
scheduled redirect. -/
theorem session_saved_without_nav :
    ((processAuth (some { noParams with token := some "abc123", redirect_to := some "%" })
        ApiOutcome.noData (ProfileOutcome.ok "p") none).saved).isSome = true ∧
    (processAuth (some { noParams with token := some "abc123", redirect_to := some "%" })
        ApiOutcome.noData (ProfileOutcome.ok "p") none).navScheduled = none := by
  exact ⟨rfl, rfl⟩

end DocFlow
